import Mathlib

/-!
Verification of the structured form submission workflow of the
new-university-uptmapp repository: the PeriodForm and ProfessorForm
components, their zod field schemas, and their submit controllers.

The JavaScript fragments the forms rely on are shallowly embedded:
dates are integer timestamps, JavaScript numbers are integers with an
explicit not-a-number case, fallible parsing returns `Except`, and a
thrown runtime exception is an explicit `JsFault` value.
-/

/-- A JavaScript runtime exception, as thrown by e.g. reading a property
of `undefined`. -/
inductive JsFault where
  | typeError (msg : String)
deriving DecidableEq

/-- Whitespace as trimmed by the JavaScript `Number` conversion:
space, tab, line feed, carriage return (control characters written by
code point). -/
def jsWhitespace (c : Char) : Bool :=
  c == ' ' || c.toNat == 9 || c.toNat == 10 || c.toNat == 13

/-- Accumulate a decimal value over a list of digit characters; any
non-digit character aborts with `none`. -/
def digitsToNat (acc : Nat) : List Char → Option Nat
  | [] => some acc
  | c :: cs => if c.isDigit then digitsToNat (acc * 10 + (c.toNat - 48)) cs else none

/-- Parse a non-empty run of decimal digits. -/
def parseDecimalNat : List Char → Option Nat
  | [] => none
  | cs => digitsToNat 0 cs

/-- A non-NaN JavaScript number: a finite value or one of the two
infinities. Finite values are exact rationals — the rounding of IEEE
double precision is not modelled, so a numeric literal denotes its
exact value. -/
inductive JsNumber where
  | finite (q : ℚ)
  | posInf
  | negInf
deriving DecidableEq

/-- Negation of a JavaScript number. -/
def jsNegate : JsNumber → JsNumber
  | .finite q => .finite (-q)
  | .posInf => .negInf
  | .negInf => .posInf

/-- The strict order on JavaScript numbers (over the non-NaN values). -/
def JsNumber.lt : JsNumber → JsNumber → Bool
  | .finite a, .finite b => decide (a < b)
  | .finite _, .posInf => true
  | .negInf, .finite _ => true
  | .negInf, .posInf => true
  | _, _ => false

/-- Value of a hexadecimal digit character, if it is one. -/
def hexDigitVal (c : Char) : Option Nat :=
  if c.isDigit then some (c.toNat - 48)
  else if 'a' ≤ c ∧ c ≤ 'f' then some (c.toNat - 87)
  else if 'A' ≤ c ∧ c ≤ 'F' then some (c.toNat - 55)
  else none

/-- Accumulate a value in the given radix over digit characters. -/
def radixToNat (radix : Nat) (acc : Nat) : List Char → Option Nat
  | [] => some acc
  | c :: cs =>
    match hexDigitVal c with
    | some d => if d < radix then radixToNat radix (acc * radix + d) cs else none
    | none => none

/-- Parse a non-empty digit run in the given radix. -/
def parseRadixTail (radix : Nat) (cs : List Char) : Option JsNumber :=
  if cs.isEmpty then none
  else (radixToNat radix 0 cs).map (fun n => .finite (n : ℚ))

/-- Split a literal at the first exponent marker `e` or `E`. -/
def splitAtExp : List Char → List Char × Option (List Char)
  | [] => ([], none)
  | c :: cs =>
    if c == 'e' || c == 'E' then ([], some cs)
    else
      let r := splitAtExp cs
      (c :: r.1, r.2)

/-- Parse the mantissa of a decimal literal: a digit run, optionally
followed by a dot and a further digit run, at least one digit in total. -/
def parseMantissa (cs : List Char) : Option ℚ :=
  let p := cs.span Char.isDigit
  match p.2 with
  | [] => if p.1.isEmpty then none else (digitsToNat 0 p.1).map (fun n => (n : ℚ))
  | c :: fracTail =>
    if c == '.' then
      let f := fracTail.span Char.isDigit
      if f.2.isEmpty then
        if p.1.isEmpty && f.1.isEmpty then none
        else
          match digitsToNat 0 p.1, digitsToNat 0 f.1 with
          | some ip, some fp => some ((ip : ℚ) + (fp : ℚ) / ((10 : ℚ) ^ f.1.length))
          | _, _ => none
      else none
    else none

/-- Parse an exponent part: an optionally signed non-empty digit run. -/
def parseExponent (cs : List Char) : Option Int :=
  match cs with
  | [] => none
  | c :: rest =>
    if c == '-' then (parseDecimalNat rest).map (fun n => -(n : Int))
    else if c == '+' then (parseDecimalNat rest).map (fun n => (n : Int))
    else (parseDecimalNat cs).map (fun n => (n : Int))

/-- Parse an unsigned decimal literal with optional exponent. -/
def parseUnsignedDecimal (cs : List Char) : Option ℚ :=
  match splitAtExp cs with
  | (m, none) => parseMantissa m
  | (m, some e) => do
    let mv ← parseMantissa m
    let ev ← parseExponent e
    some (mv * (10 : ℚ) ^ ev)

/-- What may follow a sign in a string numeric literal: `Infinity` or an
unsigned decimal literal (radix-prefixed forms take no sign). -/
def parseSignedTail (cs : List Char) : Option JsNumber :=
  if cs == ['I', 'n', 'f', 'i', 'n', 'i', 't', 'y'] then some .posInf
  else (parseUnsignedDecimal cs).map .finite

/-- An unsigned string numeric literal: `Infinity`, a hex, octal or
binary integer literal, or a decimal literal. -/
def parseSignless (cs : List Char) : Option JsNumber :=
  if cs == ['I', 'n', 'f', 'i', 'n', 'i', 't', 'y'] then some .posInf
  else
    match cs with
    | '0' :: c :: rest =>
      if c == 'x' || c == 'X' then parseRadixTail 16 rest
      else if c == 'o' || c == 'O' then parseRadixTail 8 rest
      else if c == 'b' || c == 'B' then parseRadixTail 2 rest
      else (parseUnsignedDecimal cs).map .finite
    | _ => (parseUnsignedDecimal cs).map .finite

/-- The JavaScript `Number(string)` conversion: surrounding whitespace
is trimmed, the empty string converts to 0, and the string numeric
literal grammar covers optionally signed decimal literals with
fractional part and exponent, signed or unsigned `Infinity`, and
unsigned hex, octal and binary integer literals; anything else is
not-a-number (`none`). -/
def jsStringToNumber (s : String) : Option JsNumber :=
  let t := ((s.data.dropWhile jsWhitespace).reverse.dropWhile jsWhitespace).reverse
  match t with
  | [] => some (.finite 0)
  | c :: rest =>
    if c == '-' then (parseSignedTail rest).map jsNegate
    else if c == '+' then parseSignedTail rest
    else parseSignless t

/-- A JavaScript value as it may reach a coercing field schema, with
`nan` the explicit not-a-number. -/
inductive JsVal where
  | str (s : String)
  | num (x : JsNumber)
  | nan
  | boolVal (b : Bool)
  | nullVal
  | undef
deriving DecidableEq

/-- The JavaScript `Number(x)` conversion used by `z.coerce.number()`:
`none` is NaN. -/
def jsToNumber : JsVal → Option JsNumber
  | .str s => jsStringToNumber s
  | .num x => some x
  | .nan => none
  | .boolVal b => some (.finite (if b then 1 else 0))
  | .nullVal => some (.finite 0)
  | .undef => none

/-- Issue codes of the validation library (zod). -/
inductive ZodCode where
  | invalidType
  | tooSmall
  | tooBig
  | invalidString
  | invalidEnumValue
  | custom
deriving DecidableEq

/-- A single validation issue: code plus human-readable message. -/
structure ZodIssue where
  code : ZodCode
  message : String
deriving DecidableEq

/-- Issues contributed by one field result. -/
def issuesOf {α : Type} : Except ZodIssue α → List ZodIssue
  | .ok _ => []
  | .error e => [e]

/-- The refinement context zod passes to `superRefine` callbacks: it
carries the issue path and, notably, has no `parent` property. -/
structure RefinementCtx where
  path : List String
deriving DecidableEq

/-- Run a `.refine(check, msg)` chain link as zod does: the check
callback is invoked with the parsed value only, so a two-parameter
callback receives `undefined` (`none`) as its second argument. A fault
thrown inside the callback propagates out of the whole parse. -/
def zodRefineRun {α : Type} (check : α → Option RefinementCtx → Except JsFault Bool)
    (msg : String) (v : α) : Except JsFault (Except ZodIssue α) :=
  match check v none with
  | .error f => .error f
  | .ok true => .ok (.ok v)
  | .ok false => .ok (.error ⟨.custom, msg⟩)

/-- Timestamps standing for JavaScript `Date` values; the order on
`Int` is the order on dates. -/
abbrev JsDate := Int

/-- PeriodForm schema, field `id`: `z.string().min(1, msg)`. -/
def periodIdCheck (s : String) : Except ZodIssue String :=
  if s.length < 1 then .error ⟨.tooSmall, "El ID es obligatorio."⟩ else .ok s

/-- PeriodForm schema, field `name`: `z.string().min(3, msg)`. -/
def periodNameCheck (s : String) : Except ZodIssue String :=
  if s.length < 3 then .error ⟨.tooSmall, "El nombre debe tener al menos 3 caracteres."⟩
  else .ok s

/-- PeriodForm schema, field `year`: `z.coerce.number().min(2000).max(2100)`.
The input is converted with `Number`; NaN is an invalid-type issue, then
the bounds are checked with the default zod messages. -/
def periodYearCheck (v : JsVal) : Except ZodIssue JsNumber :=
  match jsToNumber v with
  | none => .error ⟨.invalidType, "Expected number, received nan"⟩
  | some x =>
    if JsNumber.lt x (.finite 2000) then
      .error ⟨.tooSmall, "Number must be greater than or equal to 2000"⟩
    else if JsNumber.lt (.finite 2100) x then
      .error ⟨.tooBig, "Number must be less than or equal to 2100"⟩
    else .ok x

/-- PeriodForm schema, field `trimester`: `z.enum(["1", "2", "3"])`. -/
def trimesterCheck (s : String) : Except ZodIssue String :=
  if s == "1" || s == "2" || s == "3" then .ok s
  else .error ⟨.invalidEnumValue, "Invalid enum value"⟩

/-- PeriodForm schema, field `startDate`: `z.date(required_error)`; an
absent value yields the required-error issue. -/
def periodStartDateCheck (d : Option JsDate) : Except ZodIssue JsDate :=
  match d with
  | none => .error ⟨.invalidType, "La fecha de inicio es obligatoria."⟩
  | some date => .ok date

/-- The end-date refinement callback exactly as the source writes it:
a two-parameter arrow that reads `ctx.parent.startDate` and compares.
zod invokes refine callbacks with the value alone, so `ctx` is
`undefined` (`none`) and the property read throws a TypeError; even if a
`RefinementCtx` were supplied, it has no `parent` property, so the read
of `startDate` from `undefined` would throw as well. The comparison
`date > startDate` is therefore unreachable. -/
def endDateCheckFn (date : JsDate) (ctx : Option RefinementCtx) : Except JsFault Bool :=
  match ctx with
  | none => .error (.typeError "Cannot read properties of undefined")
  | some _ => .error (.typeError "Cannot read properties of undefined")

/-- PeriodForm schema, field `endDate`: `z.date(required_error).refine(...)`. -/
def periodEndDateCheck (d : Option JsDate) : Except JsFault (Except ZodIssue JsDate) :=
  match d with
  | none => .ok (.error ⟨.invalidType, "La fecha de fin es obligatoria."⟩)
  | some date =>
    zodRefineRun endDateCheckFn
      "La fecha de fin debe ser posterior a la fecha de inicio." date

/-- PeriodForm schema, field `enrollmentStartDate`: `z.date(required_error)`. -/
def periodEnrollmentStartCheck (d : Option JsDate) : Except ZodIssue JsDate :=
  match d with
  | none => .error ⟨.invalidType, "La fecha de inicio de inscripciones es obligatoria."⟩
  | some date => .ok date

/-- The enrollment end-date refinement callback as written in the source:
it reads `ctx.parent.enrollmentStartDate`, and faults for the same
reason as `endDateCheckFn`. -/
def enrollmentEndCheckFn (date : JsDate) (ctx : Option RefinementCtx) :
    Except JsFault Bool :=
  match ctx with
  | none => .error (.typeError "Cannot read properties of undefined")
  | some _ => .error (.typeError "Cannot read properties of undefined")

/-- PeriodForm schema, field `enrollmentEndDate`:
`z.date(required_error).refine(...)`. -/
def periodEnrollmentEndCheck (d : Option JsDate) :
    Except JsFault (Except ZodIssue JsDate) :=
  match d with
  | none => .ok (.error ⟨.invalidType, "La fecha de fin de inscripciones es obligatoria."⟩)
  | some date =>
    zodRefineRun enrollmentEndCheckFn
      "La fecha de fin de inscripciones debe ser posterior a la fecha de inicio." date

/-- PeriodForm schema, field `isActive`: `z.boolean().default(false)`. -/
def isActiveCheck (b : Option Bool) : Bool := b.getD false

/-- The raw field mapping handed to the period schema. -/
structure PeriodInput where
  id : String
  name : String
  year : JsVal
  trimester : String
  startDate : Option JsDate
  endDate : Option JsDate
  enrollmentStartDate : Option JsDate
  enrollmentEndDate : Option JsDate
  isActive : Option Bool
deriving DecidableEq

/-- A fully validated period entity (the schema output type). -/
structure PeriodValues where
  id : String
  name : String
  year : JsNumber
  trimester : String
  startDate : JsDate
  endDate : JsDate
  enrollmentStartDate : JsDate
  enrollmentEndDate : JsDate
  isActive : Bool
deriving DecidableEq

/-- Parse of the whole period object schema: fields are checked in
declaration order, a fault thrown by a refinement aborts the parse,
and otherwise the issues of all fields are collected; the parse
succeeds only when no field produced an issue. -/
def parsePeriod (i : PeriodInput) : Except JsFault (Except (List ZodIssue) PeriodValues) :=
  let r1 := periodIdCheck i.id
  let r2 := periodNameCheck i.name
  let r3 := periodYearCheck i.year
  let r4 := trimesterCheck i.trimester
  let r5 := periodStartDateCheck i.startDate
  match periodEndDateCheck i.endDate with
  | .error f => .error f
  | .ok r6 =>
    let r7 := periodEnrollmentStartCheck i.enrollmentStartDate
    match periodEnrollmentEndCheck i.enrollmentEndDate with
    | .error f => .error f
    | .ok r8 =>
      match r1, r2, r3, r4, r5, r6, r7, r8 with
      | .ok a1, .ok a2, .ok a3, .ok a4, .ok a5, .ok a6, .ok a7, .ok a8 =>
        .ok (.ok { id := a1, name := a2, year := a3, trimester := a4, startDate := a5,
                   endDate := a6, enrollmentStartDate := a7, enrollmentEndDate := a8,
                   isActive := isActiveCheck i.isActive })
      | s1, s2, s3, s4, s5, s6, s7, s8 =>
        .ok (.error (issuesOf s1 ++ issuesOf s2 ++ issuesOf s3 ++ issuesOf s4 ++
                     issuesOf s5 ++ issuesOf s6 ++ issuesOf s7 ++ issuesOf s8))

/-- Whether validation of a period input passes, i.e. the parse returns
a fully-typed entity rather than issues or a thrown fault. -/
def periodValidationPasses (i : PeriodInput) : Bool :=
  match parsePeriod i with
  | .ok (.ok _) => true
  | _ => false

/-- Whether validation of a period input produces a rejection carrying
field issues, as opposed to succeeding or aborting with a thrown
fault. -/
def periodValidationRejects (i : PeriodInput) : Bool :=
  match parsePeriod i with
  | .ok (.error _) => true
  | _ => false

/-- The anchored cedula regex over a character list: a leading V or E,
a dash, then the remaining characters are 7 or 8 decimal digits and
nothing else. -/
def cedulaMatchesL : List Char → Bool
  | c :: d :: rest =>
    (c == 'V' || c == 'E') && (d == '-') && rest.all (fun ch => ch.isDigit) &&
      (rest.length == 7 || rest.length == 8)
  | _ => false

/-- ProfessorForm schema, field `cedula`, the regex test of
`z.string().regex(pattern, msg)` on the whole string. -/
def cedulaMatches (s : String) : Bool := cedulaMatchesL s.data

/-- Modelled from the spec words for comparison: the cedula pattern is
the letter V or E, a dash, then 7 to 8 digits. -/
def cedulaSpecPattern (s : String) : Prop :=
  ∃ c digits, s.data = c :: '-' :: digits ∧ (c = 'V' ∨ c = 'E') ∧
    (∀ ch ∈ digits, ch.isDigit) ∧ (digits.length = 7 ∨ digits.length = 8)

/-- ProfessorForm schema, field `cedula`: `z.string().regex(...)`. -/
def cedulaCheck (s : String) : Except ZodIssue String :=
  if cedulaMatches s then .ok s
  else .error ⟨.invalidString, "La cédula debe tener el formato V-1234567 o E-1234567."⟩

/-- Characters the email local part may contain besides the dot:
alphanumerics, underscore, plus, hyphen, apostrophe (by code point). -/
def emailAtomChar (c : Char) : Bool :=
  c.isAlphanum || c == '_' || c == '+' || c == '-' || c == Char.ofNat 39

/-- No two consecutive dots occur in the list. -/
def noDoubleDot : List Char → Bool
  | c :: d :: cs => !((c == '.') && (d == '.')) && noDoubleDot (d :: cs)
  | _ => true

/-- Local part of the email pattern built into the validation library:
non-empty, no leading dot, no double dot, atoms or dots throughout, and
the final character is an atom (not a dot). -/
def emailLocalOk (l : List Char) : Bool :=
  match l with
  | [] => false
  | c :: _ =>
    (c != '.') && l.all (fun ch => emailAtomChar ch || ch == '.') && noDoubleDot l &&
      (match l.getLast? with
       | some e => emailAtomChar e
       | none => false)

/-- Split a character list at every occurrence of the separator. -/
def splitOnChar (sep : Char) : List Char → List (List Char)
  | [] => [[]]
  | c :: cs =>
    let r := splitOnChar sep cs
    if c == sep then [] :: r
    else
      match r with
      | [] => [[c]]
      | h :: t => (c :: h) :: t

/-- A domain label: starts alphanumeric, continues alphanumeric or
hyphen. -/
def emailLabelOk : List Char → Bool
  | [] => false
  | c :: cs => c.isAlphanum && cs.all (fun ch => ch.isAlphanum || ch == '-')

/-- Top-level domain: at least two characters, all letters. -/
def emailTldOk (l : List Char) : Bool :=
  decide (2 ≤ l.length) && l.all (fun ch => ch.isAlpha)

/-- Domain side of the email pattern: one or more labels, a dot, and an
alphabetic top-level domain. -/
def emailDomainOk (l : List Char) : Bool :=
  match (splitOnChar '.' l).reverse with
  | [] => false
  | tld :: labels => emailTldOk tld && !labels.isEmpty && labels.all emailLabelOk

/-- The email predicate built into the validation library (`.email()`),
modelled structurally: a restricted local part, a single at sign, and a
dot-separated domain ending in an alphabetic top-level domain. -/
def zodEmailMatches (s : String) : Bool :=
  match splitOnChar '@' s.data with
  | [localPart, domainPart] => emailLocalOk localPart && emailDomainOk domainPart
  | _ => false

/-- ProfessorForm schema, field `id`: `z.string().min(2, msg)`. -/
def professorIdCheck (s : String) : Except ZodIssue String :=
  if s.length < 2 then .error ⟨.tooSmall, "El ID debe tener al menos 2 caracteres."⟩
  else .ok s

/-- ProfessorForm schema, field `firstName`: `z.string().min(2, msg)`. -/
def firstNameCheck (s : String) : Except ZodIssue String :=
  if s.length < 2 then .error ⟨.tooSmall, "El nombre debe tener al menos 2 caracteres."⟩
  else .ok s

/-- ProfessorForm schema, field `lastName`: `z.string().min(2, msg)`. -/
def lastNameCheck (s : String) : Except ZodIssue String :=
  if s.length < 2 then .error ⟨.tooSmall, "El apellido debe tener al menos 2 caracteres."⟩
  else .ok s

/-- ProfessorForm schema, field `department`: `z.string(required_error)`;
an absent value yields the required-error issue, any string passes. -/
def departmentCheck (d : Option String) : Except ZodIssue String :=
  match d with
  | none => .error ⟨.invalidType, "Por favor seleccione un departamento."⟩
  | some s => .ok s

/-- ProfessorForm schema, field `education`: `z.string().min(2, msg)`. -/
def educationCheck (s : String) : Except ZodIssue String :=
  if s.length < 2 then
    .error ⟨.tooSmall, "El grado académico debe tener al menos 2 caracteres."⟩
  else .ok s

/-- ProfessorForm schema, field `specialization`: `z.string().min(2, msg)`. -/
def specializationCheck (s : String) : Except ZodIssue String :=
  if s.length < 2 then
    .error ⟨.tooSmall, "La especialización debe tener al menos 2 caracteres."⟩
  else .ok s

/-- ProfessorForm schema, field `email`: `z.string().email(msg)`. -/
def emailCheck (s : String) : Except ZodIssue String :=
  if zodEmailMatches s then .ok s
  else .error ⟨.invalidString, "Correo electrónico inválido."⟩

/-- ProfessorForm schema, field `phone`: `z.string().min(10, msg)`. -/
def phoneCheck (s : String) : Except ZodIssue String :=
  if s.length < 10 then .error ⟨.tooSmall, "Número de teléfono inválido."⟩
  else .ok s

/-- ProfessorForm schema, field `hireDateMonth`: `z.string()` — a bare
string schema with no enumeration, range, or numeric constraint, so
every string passes. -/
def hireDateMonthCheck (s : String) : Except ZodIssue String := .ok s

/-- ProfessorForm schema, field `hireDateYear`: `z.string()` — likewise
unconstrained. -/
def hireDateYearCheck (s : String) : Except ZodIssue String := .ok s

/-- ProfessorForm schema, field `contractType`:
`z.enum(["tiempo_completo", "tiempo_parcial", "por_hora"])`. -/
def contractTypeCheck (s : String) : Except ZodIssue String :=
  if s == "tiempo_completo" || s == "tiempo_parcial" || s == "por_hora" then .ok s
  else .error ⟨.invalidEnumValue, "Invalid enum value"⟩

/-- ProfessorForm schema, field `status`:
`z.enum(["activo", "inactivo", "sabático", "permiso"])`. -/
def statusCheck (s : String) : Except ZodIssue String :=
  if s == "activo" || s == "inactivo" || s == "sabático" || s == "permiso" then .ok s
  else .error ⟨.invalidEnumValue, "Invalid enum value"⟩

/-- The raw field mapping handed to the professor schema. -/
structure ProfessorInput where
  id : String
  firstName : String
  lastName : String
  cedula : String
  department : Option String
  education : String
  specialization : String
  email : String
  phone : String
  hireDateMonth : String
  hireDateYear : String
  contractType : String
  status : String
deriving DecidableEq

/-- A fully validated professor entity (the schema output type). -/
structure ProfessorValues where
  id : String
  firstName : String
  lastName : String
  cedula : String
  department : String
  education : String
  specialization : String
  email : String
  phone : String
  hireDateMonth : String
  hireDateYear : String
  contractType : String
  status : String
deriving DecidableEq

/-- Issues of all professor fields, collected in declaration order. -/
def professorIssues (i : ProfessorInput) : List ZodIssue :=
  issuesOf (professorIdCheck i.id) ++ issuesOf (firstNameCheck i.firstName) ++
  issuesOf (lastNameCheck i.lastName) ++ issuesOf (cedulaCheck i.cedula) ++
  issuesOf (departmentCheck i.department) ++ issuesOf (educationCheck i.education) ++
  issuesOf (specializationCheck i.specialization) ++ issuesOf (emailCheck i.email) ++
  issuesOf (phoneCheck i.phone) ++ issuesOf (hireDateMonthCheck i.hireDateMonth) ++
  issuesOf (hireDateYearCheck i.hireDateYear) ++
  issuesOf (contractTypeCheck i.contractType) ++ issuesOf (statusCheck i.status)

/-- Parse of the whole professor object schema: every field is checked,
the parse succeeds when all fields pass, and otherwise the issues of
all fields are reported in declaration order. No refinement of this
schema can throw. -/
def parseProfessor (i : ProfessorInput) : Except (List ZodIssue) ProfessorValues :=
  match professorIdCheck i.id, firstNameCheck i.firstName, lastNameCheck i.lastName,
      cedulaCheck i.cedula, departmentCheck i.department, educationCheck i.education,
      specializationCheck i.specialization, emailCheck i.email, phoneCheck i.phone,
      hireDateMonthCheck i.hireDateMonth, hireDateYearCheck i.hireDateYear,
      contractTypeCheck i.contractType, statusCheck i.status with
  | .ok a1, .ok a2, .ok a3, .ok a4, .ok a5, .ok a6, .ok a7, .ok a8, .ok a9,
      .ok a10, .ok a11, .ok a12, .ok a13 =>
    .ok { id := a1, firstName := a2, lastName := a3, cedula := a4, department := a5,
          education := a6, specialization := a7, email := a8, phone := a9,
          hireDateMonth := a10, hireDateYear := a11, contractType := a12, status := a13 }
  | _, _, _, _, _, _, _, _, _, _, _, _, _ => .error (professorIssues i)

/-- The discriminated result the Persistence Gateway resolves with:
`success` plus an optional error reason. -/
structure GatewayResult where
  success : Bool
  error : Option String
deriving DecidableEq

/-- How one gateway call turns out: it resolves with a result, or the
call faults — throwing synchronously or rejecting asynchronously. -/
inductive GatewayOutcome where
  | resolved (r : GatewayResult)
  | faultSync
  | faultAsync
deriving DecidableEq

/-- Whether the outcome is a resolution with `success` set. -/
def GatewayOutcome.succeeded : GatewayOutcome → Bool
  | .resolved r => r.success
  | .faultSync => false
  | .faultAsync => false

/-- Observable side effects of one run of a form submit handler, over a
gateway payload type and a validated-entity type. -/
inductive FormEffect (π ν : Type) where
  | setSubmitting (b : Bool)
  | gatewayCall (payload : π)
  | toastSuccess (title desc : String)
  | toastError (title desc : String)
  | consoleError (tag : String)
  | callOnSubmit (v : ν)
  | formReset
  | callOnClose
deriving DecidableEq

/-- Whether an effect is the invocation of the `onSubmit` callback. -/
def FormEffect.isOnSubmit {π ν : Type} : FormEffect π ν → Bool
  | .callOnSubmit _ => true
  | _ => false

/-- Whether an effect is the invocation of the `onClose` callback. -/
def FormEffect.isOnClose {π ν : Type} : FormEffect π ν → Bool
  | .callOnClose => true
  | _ => false

/-- Whether an effect is the `form.reset()` call that restores the field
mapping to its defaults. -/
def FormEffect.isReset {π ν : Type} : FormEffect π ν → Bool
  | .formReset => true
  | _ => false

/-- Whether an effect is an error notification. -/
def FormEffect.isToastError {π ν : Type} : FormEffect π ν → Bool
  | .toastError _ _ => true
  | _ => false

/-- Whether an effect is a Persistence Gateway call. -/
def FormEffect.isGatewayCall {π ν : Type} : FormEffect π ν → Bool
  | .gatewayCall _ => true
  | _ => false

/-- The gateway calls contained in a trace. -/
def gatewayCalls {π ν : Type} (tr : List (FormEffect π ν)) : List (FormEffect π ν) :=
  tr.filter FormEffect.isGatewayCall

/-- The object PeriodForm.handleSubmit passes to `savePeriod`: the
validated fields spread out with the validator `id` renamed to `code`
and every other field kept under its own name. -/
structure PeriodPayload where
  code : String
  name : String
  year : JsNumber
  trimester : String
  startDate : JsDate
  endDate : JsDate
  enrollmentStartDate : JsDate
  enrollmentEndDate : JsDate
  isActive : Bool
deriving DecidableEq

/-- The field-by-field construction of the `savePeriod` argument at the
call site in PeriodForm.handleSubmit. -/
def periodPayload (v : PeriodValues) : PeriodPayload :=
  { code := v.id, name := v.name, year := v.year, trimester := v.trimester,
    startDate := v.startDate, endDate := v.endDate,
    enrollmentStartDate := v.enrollmentStartDate,
    enrollmentEndDate := v.enrollmentEndDate, isActive := v.isActive }

/-- Effect trace of one run of PeriodForm.handleSubmit on validated
values, as a function of how the `savePeriod` call turns out. The
handler sets the submitting flag, calls the gateway, branches on
`result.success` (success toast, `onSubmit(values)`, `form.reset()`,
`onClose()` versus error toast with the gateway reason or a fallback),
catches any fault with a console log and a generic error toast, and in
`finally` clears the submitting flag. -/
def periodHandleSubmit (initialData : Option PeriodValues) (values : PeriodValues) :
    GatewayOutcome → List (FormEffect PeriodPayload PeriodValues)
  | .faultSync =>
    [.setSubmitting true, .gatewayCall (periodPayload values),
     .consoleError "Error al guardar período:",
     .toastError "Error" "Ocurrió un error al procesar la solicitud.",
     .setSubmitting false]
  | .faultAsync =>
    [.setSubmitting true, .gatewayCall (periodPayload values),
     .consoleError "Error al guardar período:",
     .toastError "Error" "Ocurrió un error al procesar la solicitud.",
     .setSubmitting false]
  | .resolved r =>
    [.setSubmitting true, .gatewayCall (periodPayload values)] ++
    (if r.success then
       [.toastSuccess (if initialData.isSome then "Período actualizado" else "Período registrado")
          (if initialData.isSome then
             "Los datos del período han sido actualizados correctamente."
           else
             "El período ha sido registrado correctamente."),
        .callOnSubmit values, .formReset, .callOnClose]
     else
       [.toastError "Error" (r.error.getD "No se pudo guardar los datos del período.")]) ++
    [.setSubmitting false]

/-- Effect trace of one run of ProfessorForm.handleSubmit; identical
control flow, with `saveProfessor(values)` receiving the validated
values unrenamed. -/
def professorHandleSubmit (initialData : Option ProfessorValues) (values : ProfessorValues) :
    GatewayOutcome → List (FormEffect ProfessorValues ProfessorValues)
  | .faultSync =>
    [.setSubmitting true, .gatewayCall values,
     .consoleError "Error al guardar profesor:",
     .toastError "Error" "Ocurrió un error al procesar la solicitud.",
     .setSubmitting false]
  | .faultAsync =>
    [.setSubmitting true, .gatewayCall values,
     .consoleError "Error al guardar profesor:",
     .toastError "Error" "Ocurrió un error al procesar la solicitud.",
     .setSubmitting false]
  | .resolved r =>
    [.setSubmitting true, .gatewayCall values] ++
    (if r.success then
       [.toastSuccess (if initialData.isSome then "Profesor actualizado" else "Profesor registrado")
          (if initialData.isSome then
             "Los datos del profesor han sido actualizados correctamente."
           else
             "El profesor ha sido registrado correctamente."),
        .callOnSubmit values, .formReset, .callOnClose]
     else
       [.toastError "Error" (r.error.getD "No se pudo guardar los datos del profesor.")]) ++
    [.setSubmitting false]

/-- One full submit attempt of the period form: react-hook-form with the
zod resolver invokes the submit handler only when the parse succeeds;
on a rejected parse the field errors are rendered and on a faulting
parse the exception propagates — in both cases the handler never runs
and no effects are produced. -/
def periodSubmitAttempt (i : PeriodInput) (initialData : Option PeriodValues)
    (o : GatewayOutcome) : List (FormEffect PeriodPayload PeriodValues) :=
  match parsePeriod i with
  | .ok (.ok v) => periodHandleSubmit initialData v o
  | _ => []

/-- One full submit attempt of the professor form. -/
def professorSubmitAttempt (i : ProfessorInput) (initialData : Option ProfessorValues)
    (o : GatewayOutcome) : List (FormEffect ProfessorValues ProfessorValues) :=
  match parseProfessor i with
  | .ok v => professorHandleSubmit initialData v o
  | .error _ => []

/-- Dialog-level state of one form instance: the `isSubmitting` flag
backing the disabled submit and cancel buttons. -/
structure DialogState where
  isSubmitting : Bool
deriving DecidableEq

/-- User and completion events at the dialog footer. -/
inductive UiEvent where
  | clickSubmit (valid : Bool)
  | clickCancel
  | gatewayDone (success : Bool)
deriving DecidableEq

/-- Effects observable at the dialog level. -/
inductive UiEffect where
  | gatewayCall
  | onCloseCall
deriving DecidableEq

/-- Whether a dialog-level effect is a gateway call. -/
def UiEffect.isGatewayCall : UiEffect → Bool
  | .gatewayCall => true
  | .onCloseCall => false

/-- One step of the dialog: both footer buttons carry
`disabled := isSubmitting`, so while the flag is set a click is a
no-op; an enabled submit click with passing validation starts the
submission (flag set, one gateway call issued), an enabled submit click
with failing validation only renders errors, an enabled cancel click
invokes `onClose`, and gateway completion clears the flag. -/
def dialogStep (s : DialogState) : UiEvent → DialogState × List UiEffect
  | .clickSubmit valid =>
    if s.isSubmitting then (s, [])
    else if valid then ({ isSubmitting := true }, [.gatewayCall])
    else (s, [])
  | .clickCancel =>
    if s.isSubmitting then (s, []) else (s, [.onCloseCall])
  | .gatewayDone _ => ({ isSubmitting := false }, [])

/-- Run a sequence of dialog events, concatenating the effects. -/
def dialogRun (s : DialogState) : List UiEvent → DialogState × List UiEffect
  | [] => (s, [])
  | e :: es =>
    let p := dialogStep s e
    let q := dialogRun p.1 es
    (q.1, p.2 ++ q.2)

/-- Month names offered by the hire-date month select; the rendered
option values are the indices 0 to 11 as strings. -/
def months : List String :=
  ["Enero", "Febrero", "Marzo", "Abril", "Mayo", "Junio", "Julio", "Agosto",
   "Septiembre", "Octubre", "Noviembre", "Diciembre"]

/-- Option values of the hire-date month select: `index.toString()` for
each month. -/
def hireMonthOptionValues : List String :=
  (List.range months.length).map (fun i => toString i)

/-- Option values of the hire-date year select: the years from the
current year down to 1990, as strings
(`Array.from(length: currentYear - 1990 + 1, (_, i) => (currentYear - i).toString())`). -/
def hireYearOptionValues (currentYear : Nat) : List String :=
  (List.range (currentYear - 1990 + 1)).map (fun i => toString (currentYear - i))

/-- The validated period entity of the specification scenario:
id "2024-T1", dates encoded as yyyymmdd timestamps. -/
def specPeriodValues : PeriodValues :=
  { id := "2024-T1", name := "Trimester I 2024", year := .finite 2024, trimester := "1",
    startDate := 20240101, endDate := 20240401,
    enrollmentStartDate := 20231215, enrollmentEndDate := 20231222, isActive := false }

/-- The raw input of the specification scenario, as the form would hand
it to the schema. -/
def specScenarioInput : PeriodInput :=
  { id := "2024-T1", name := "Trimester I 2024", year := .str "2024", trimester := "1",
    startDate := some 20240101, endDate := some 20240401,
    enrollmentStartDate := some 20231215, enrollmentEndDate := some 20231222,
    isActive := some false }

/-- A professor input that fills every constrained field with passing
values, leaving the two hire-date strings as parameters. -/
def sampleProfessorInput (m y : String) : ProfessorInput :=
  { id := "PROF-001", firstName := "Ana", lastName := "Lovelace",
    cedula := "V-12345678", department := some "informatica",
    education := "Doctora en Informatica", specialization := "IA",
    email := "ana@ejemplo.com", phone := "+58 412 1234567",
    hireDateMonth := m, hireDateYear := y,
    contractType := "tiempo_completo", status := "activo" }

/-- The validated entity the sample professor input parses to. -/
def sampleProfessorValues (m y : String) : ProfessorValues :=
  { id := "PROF-001", firstName := "Ana", lastName := "Lovelace",
    cedula := "V-12345678", department := "informatica",
    education := "Doctora en Informatica", specialization := "IA",
    email := "ana@ejemplo.com", phone := "+58 412 1234567",
    hireDateMonth := m, hireDateYear := y,
    contractType := "tiempo_completo", status := "activo" }

/-- Helper: the period parse can never succeed — the end-date field
either carries the required-error issue (absent date) or its refinement
faults (present date), so the all-fields-ok branch is unreachable. -/
theorem parsePeriod_no_success (i : PeriodInput) : periodValidationPasses i = false := by
  unfold periodValidationPasses parsePeriod
  cases hend : i.endDate with
  | some d =>
    simp [periodEndDateCheck, zodRefineRun, endDateCheckFn]
  | none =>
    cases henr : i.enrollmentEndDate with
    | some d =>
      simp [periodEndDateCheck, periodEnrollmentEndCheck, zodRefineRun, enrollmentEndCheckFn]
    | none =>
      simp only [periodEndDateCheck, periodEnrollmentEndCheck]
      split <;> simp_all

/-- Helper: a successful professor parse pins every field check to the
corresponding field of the produced entity. -/
theorem parseProfessor_ok_fields (i : ProfessorInput) (v : ProfessorValues)
    (h : parseProfessor i = .ok v) :
    professorIdCheck i.id = .ok v.id ∧ firstNameCheck i.firstName = .ok v.firstName ∧
    lastNameCheck i.lastName = .ok v.lastName ∧ cedulaCheck i.cedula = .ok v.cedula ∧
    departmentCheck i.department = .ok v.department ∧
    educationCheck i.education = .ok v.education ∧
    specializationCheck i.specialization = .ok v.specialization ∧
    emailCheck i.email = .ok v.email ∧ phoneCheck i.phone = .ok v.phone ∧
    hireDateMonthCheck i.hireDateMonth = .ok v.hireDateMonth ∧
    hireDateYearCheck i.hireDateYear = .ok v.hireDateYear ∧
    contractTypeCheck i.contractType = .ok v.contractType ∧
    statusCheck i.status = .ok v.status := by
  unfold parseProfessor at h
  split at h
  · injection h with h
    subst h
    simp_all
  · exact absurd h (by simp)

/-- Helper: a rejected professor parse reports exactly the collected
field issues. -/
theorem parseProfessor_error_issues (i : ProfessorInput) (l : List ZodIssue)
    (h : parseProfessor i = .error l) : l = professorIssues i := by
  unfold parseProfessor at h
  split at h
  · exact absurd h (by simp)
  · injection h with h
    exact h.symm

/-- C1: for every submit attempt in which the Persistence Gateway call
resolves with `result.success = true`, the handler invokes the
`onSubmit` callback exactly once with the validated entity, resets the
field mapping to its defaults, and closes the dialog by calling
`onClose` — in both the period and the professor form. -/
theorem submit_success_path :
    (∀ (init : Option PeriodValues) (v : PeriodValues) (r : GatewayResult),
        r.success = true →
        (periodHandleSubmit init v (.resolved r)).filter FormEffect.isOnSubmit
            = [FormEffect.callOnSubmit v] ∧
        FormEffect.formReset ∈ periodHandleSubmit init v (.resolved r) ∧
        FormEffect.callOnClose ∈ periodHandleSubmit init v (.resolved r)) ∧
    (∀ (init : Option ProfessorValues) (v : ProfessorValues) (r : GatewayResult),
        r.success = true →
        (professorHandleSubmit init v (.resolved r)).filter FormEffect.isOnSubmit
            = [FormEffect.callOnSubmit v] ∧
        FormEffect.formReset ∈ professorHandleSubmit init v (.resolved r) ∧
        FormEffect.callOnClose ∈ professorHandleSubmit init v (.resolved r)) := by
  constructor <;> intro init v r h <;>
    simp [periodHandleSubmit, professorHandleSubmit, h, FormEffect.isOnSubmit, List.filter]

/-- Witness for C1 at the specification scenario entities and a
successful gateway result. -/
theorem submit_success_path_witness :
    ((periodHandleSubmit none specPeriodValues (.resolved ⟨true, none⟩)).filter
        FormEffect.isOnSubmit = [FormEffect.callOnSubmit specPeriodValues] ∧
      FormEffect.formReset ∈ periodHandleSubmit none specPeriodValues (.resolved ⟨true, none⟩) ∧
      FormEffect.callOnClose ∈ periodHandleSubmit none specPeriodValues (.resolved ⟨true, none⟩)) ∧
    ((professorHandleSubmit none (sampleProfessorValues "0" "2024") (.resolved ⟨true, none⟩)).filter
        FormEffect.isOnSubmit = [FormEffect.callOnSubmit (sampleProfessorValues "0" "2024")] ∧
      FormEffect.formReset ∈
        professorHandleSubmit none (sampleProfessorValues "0" "2024") (.resolved ⟨true, none⟩) ∧
      FormEffect.callOnClose ∈
        professorHandleSubmit none (sampleProfessorValues "0" "2024") (.resolved ⟨true, none⟩)) :=
  ⟨submit_success_path.1 none specPeriodValues ⟨true, none⟩ rfl,
   submit_success_path.2 none (sampleProfessorValues "0" "2024") ⟨true, none⟩ rfl⟩

/-- C2: for every submit attempt in which the gateway resolves with a
failure indicator or the call faults, neither `onSubmit` nor `onClose`
is invoked and the field mapping is not reset (the dialog stays open and
the mapping is preserved); exactly one error notification is emitted. -/
theorem submit_failure_path :
    (∀ (init : Option PeriodValues) (v : PeriodValues) (o : GatewayOutcome),
        o.succeeded = false →
        (periodHandleSubmit init v o).filter FormEffect.isOnSubmit = [] ∧
        (periodHandleSubmit init v o).filter FormEffect.isOnClose = [] ∧
        (periodHandleSubmit init v o).filter FormEffect.isReset = [] ∧
        ((periodHandleSubmit init v o).filter FormEffect.isToastError).length = 1) ∧
    (∀ (init : Option ProfessorValues) (v : ProfessorValues) (o : GatewayOutcome),
        o.succeeded = false →
        (professorHandleSubmit init v o).filter FormEffect.isOnSubmit = [] ∧
        (professorHandleSubmit init v o).filter FormEffect.isOnClose = [] ∧
        (professorHandleSubmit init v o).filter FormEffect.isReset = [] ∧
        ((professorHandleSubmit init v o).filter FormEffect.isToastError).length = 1) := by
  constructor <;> intro init v o h <;> cases o <;>
    simp_all [periodHandleSubmit, professorHandleSubmit, GatewayOutcome.succeeded,
      FormEffect.isOnSubmit, FormEffect.isOnClose, FormEffect.isReset,
      FormEffect.isToastError, List.filter]

/-- Witness for C2 at an application-level rejection and an
asynchronous fault. -/
theorem submit_failure_path_witness :
    ((periodHandleSubmit none specPeriodValues
          (.resolved ⟨false, some "El ID ya existe"⟩)).filter FormEffect.isOnSubmit = [] ∧
      (periodHandleSubmit none specPeriodValues
          (.resolved ⟨false, some "El ID ya existe"⟩)).filter FormEffect.isOnClose = [] ∧
      (periodHandleSubmit none specPeriodValues
          (.resolved ⟨false, some "El ID ya existe"⟩)).filter FormEffect.isReset = [] ∧
      ((periodHandleSubmit none specPeriodValues
          (.resolved ⟨false, some "El ID ya existe"⟩)).filter FormEffect.isToastError).length
        = 1) ∧
    ((professorHandleSubmit none (sampleProfessorValues "0" "2024") .faultAsync).filter
        FormEffect.isOnSubmit = [] ∧
      (professorHandleSubmit none (sampleProfessorValues "0" "2024") .faultAsync).filter
        FormEffect.isOnClose = [] ∧
      (professorHandleSubmit none (sampleProfessorValues "0" "2024") .faultAsync).filter
        FormEffect.isReset = [] ∧
      ((professorHandleSubmit none (sampleProfessorValues "0" "2024") .faultAsync).filter
        FormEffect.isToastError).length = 1) :=
  ⟨submit_failure_path.1 none specPeriodValues (.resolved ⟨false, some "El ID ya existe"⟩) rfl,
   submit_failure_path.2 none (sampleProfessorValues "0" "2024") .faultAsync rfl⟩

/-- C6: on every exit path of a submit attempt — gateway success,
gateway failure indicator, or a fault thrown synchronously or
asynchronously — the final effect of the handler is clearing the
`isSubmitting` flag, so the form returns to the submittable state. -/
theorem submitting_flag_cleared :
    (∀ (init : Option PeriodValues) (v : PeriodValues) (o : GatewayOutcome),
        (periodHandleSubmit init v o).getLast? = some (FormEffect.setSubmitting false)) ∧
    (∀ (init : Option ProfessorValues) (v : ProfessorValues) (o : GatewayOutcome),
        (professorHandleSubmit init v o).getLast? = some (FormEffect.setSubmitting false)) := by
  constructor
  · intro init v o
    cases o with
    | resolved r => rcases r with ⟨s, e⟩; cases s <;> rfl
    | faultSync => rfl
    | faultAsync => rfl
  · intro init v o
    cases o with
    | resolved r => rcases r with ⟨s, e⟩; cases s <;> rfl
    | faultSync => rfl
    | faultAsync => rfl

/-- C7: the payload forwarded to `savePeriod` maps the validator `id`
field to the gateway field `code` and keeps every other field under its
own name; the gateway call carrying this payload is part of every
resolved submit trace, and the scenario entity with id "2024-T1"
reaches the gateway with code "2024-T1". -/
theorem period_payload_code_remap :
    (∀ v : PeriodValues,
        (periodPayload v).code = v.id ∧ (periodPayload v).name = v.name ∧
        (periodPayload v).year = v.year ∧ (periodPayload v).trimester = v.trimester ∧
        (periodPayload v).startDate = v.startDate ∧
        (periodPayload v).endDate = v.endDate ∧
        (periodPayload v).enrollmentStartDate = v.enrollmentStartDate ∧
        (periodPayload v).enrollmentEndDate = v.enrollmentEndDate ∧
        (periodPayload v).isActive = v.isActive) ∧
    (periodPayload specPeriodValues).code = "2024-T1" ∧
    (∀ (init : Option PeriodValues) (v : PeriodValues) (r : GatewayResult),
        FormEffect.gatewayCall (periodPayload v) ∈ periodHandleSubmit init v (.resolved r)) := by
  refine ⟨fun v => ⟨rfl, rfl, rfl, rfl, rfl, rfl, rfl, rfl, rfl⟩, rfl, ?_⟩
  intro init v r
  simp [periodHandleSubmit]

/-- C3: while the `isSubmitting` flag is set both footer buttons are
disabled, so triggering submit or cancel is a no-op, and consequently
two rapid submit clicks from any state issue at most one gateway call. -/
theorem single_flight_guard :
    (∀ (s : DialogState) (valid : Bool), s.isSubmitting = true →
        dialogStep s (.clickSubmit valid) = (s, []) ∧
        dialogStep s .clickCancel = (s, [])) ∧
    (∀ (s : DialogState) (v1 v2 : Bool),
        ((dialogRun s [.clickSubmit v1, .clickSubmit v2]).2.filter
            UiEffect.isGatewayCall).length ≤ 1) := by
  constructor
  · intro s valid h
    exact ⟨by simp [dialogStep, h], by simp [dialogStep, h]⟩
  · intro s v1 v2
    rcases s with ⟨b⟩
    cases b <;> cases v1 <;> cases v2 <;>
      simp [dialogRun, dialogStep, UiEffect.isGatewayCall, List.filter]

/-- Witness for C3: a submitting dialog ignores both buttons, and a
double click from idle yields at most one call. -/
theorem single_flight_guard_witness :
    dialogStep ⟨true⟩ (.clickSubmit true) = (⟨true⟩, []) ∧
    dialogStep ⟨true⟩ .clickCancel = (⟨true⟩, []) ∧
    ((dialogRun ⟨false⟩ [.clickSubmit true, .clickSubmit true]).2.filter
        UiEffect.isGatewayCall).length ≤ 1 :=
  ⟨(single_flight_guard.1 ⟨true⟩ true rfl).1, (single_flight_guard.1 ⟨true⟩ true rfl).2,
   single_flight_guard.2 ⟨false⟩ true true⟩

/-- C4 (code bug): both cross-field date refinements of the period
schema throw a TypeError for every present date — the callbacks read
`parent` from the second argument, but zod invokes refine callbacks
with the value alone, so that argument is `undefined` — hence period
validation never decides end against start and in fact never passes;
on the specification scenario input the parse aborts with the fault
instead of succeeding. -/
theorem endDate_refine_faults :
    (∀ d : JsDate, periodEndDateCheck (some d)
        = .error (.typeError "Cannot read properties of undefined")) ∧
    (∀ d : JsDate, periodEnrollmentEndCheck (some d)
        = .error (.typeError "Cannot read properties of undefined")) ∧
    (∀ i : PeriodInput, periodValidationPasses i = false) ∧
    parsePeriod specScenarioInput
      = .error (.typeError "Cannot read properties of undefined") :=
  ⟨fun _ => rfl, fun _ => rfl, parsePeriod_no_success, rfl⟩

/-- A professor input with a first name shorter than the declared
minimum and every other field passing. -/
def shortProfessorInput : ProfessorInput :=
  { sampleProfessorInput "0" "2024" with firstName := "A" }

/-- The scenario input with a too-short id and both end-date fields
absent. -/
def shortIdNoDatesInput : PeriodInput :=
  { specScenarioInput with id := "", endDate := none, enrollmentEndDate := none }

/-- C5 amended: every min-length field rule rejects shorter input with
its declared error (period: id min 1, name min 3; professor: id, first
and last name, education, specialization min 2, phone min 10); a submit
attempt whose input violates a minimum never reaches the Persistence
Gateway; the professor schema surfaces the violated field issue in its
rejection, while the period schema surfaces it only when both end-date
fields are absent — with an end date present its parse aborts with the
cross-field refinement fault before any field error is reported. -/
theorem min_length_rejection :
    (∀ s : String, s.length < 1 →
        periodIdCheck s = .error ⟨.tooSmall, "El ID es obligatorio."⟩) ∧
    (∀ s : String, s.length < 3 →
        periodNameCheck s
          = .error ⟨.tooSmall, "El nombre debe tener al menos 3 caracteres."⟩) ∧
    (∀ s : String, s.length < 2 →
        professorIdCheck s
          = .error ⟨.tooSmall, "El ID debe tener al menos 2 caracteres."⟩) ∧
    (∀ s : String, s.length < 2 →
        firstNameCheck s
          = .error ⟨.tooSmall, "El nombre debe tener al menos 2 caracteres."⟩) ∧
    (∀ s : String, s.length < 2 →
        lastNameCheck s
          = .error ⟨.tooSmall, "El apellido debe tener al menos 2 caracteres."⟩) ∧
    (∀ s : String, s.length < 2 →
        educationCheck s
          = .error ⟨.tooSmall, "El grado académico debe tener al menos 2 caracteres."⟩) ∧
    (∀ s : String, s.length < 2 →
        specializationCheck s
          = .error ⟨.tooSmall, "La especialización debe tener al menos 2 caracteres."⟩) ∧
    (∀ s : String, s.length < 10 →
        phoneCheck s = .error ⟨.tooSmall, "Número de teléfono inválido."⟩) ∧
    (∀ (i : PeriodInput) (init : Option PeriodValues) (o : GatewayOutcome),
        i.id.length < 1 ∨ i.name.length < 3 →
        gatewayCalls (periodSubmitAttempt i init o) = []) ∧
    (∀ (i : ProfessorInput) (init : Option ProfessorValues) (o : GatewayOutcome),
        i.id.length < 2 ∨ i.firstName.length < 2 ∨ i.lastName.length < 2 ∨
          i.education.length < 2 ∨ i.specialization.length < 2 ∨ i.phone.length < 10 →
        gatewayCalls (professorSubmitAttempt i init o) = []) ∧
    (∀ i : ProfessorInput, i.firstName.length < 2 →
        ∃ issues, parseProfessor i = .error issues ∧
          ZodIssue.mk .tooSmall "El nombre debe tener al menos 2 caracteres." ∈ issues) ∧
    (∀ i : PeriodInput, i.endDate = none → i.enrollmentEndDate = none →
        i.id.length < 1 →
        ∃ issues, parsePeriod i = .ok (.error issues) ∧
          ZodIssue.mk .tooSmall "El ID es obligatorio." ∈ issues) := by
  refine ⟨fun s h => by simp [periodIdCheck, h], fun s h => by simp [periodNameCheck, h],
    fun s h => by simp [professorIdCheck, h], fun s h => by simp [firstNameCheck, h],
    fun s h => by simp [lastNameCheck, h], fun s h => by simp [educationCheck, h],
    fun s h => by simp [specializationCheck, h], fun s h => by simp [phoneCheck, h],
    ?_, ?_, ?_, ?_⟩
  · intro i init o h
    have hv := parsePeriod_no_success i
    unfold periodValidationPasses at hv
    unfold periodSubmitAttempt
    cases hp : parsePeriod i with
    | error f => simp [gatewayCalls]
    | ok r =>
      cases r with
      | error l => simp [gatewayCalls]
      | ok v => rw [hp] at hv; simp at hv
  · intro i init o h
    cases hp : parseProfessor i with
    | error l => simp [professorSubmitAttempt, hp, gatewayCalls]
    | ok v =>
      exfalso
      have hf := parseProfessor_ok_fields i v hp
      rcases h with h | h | h | h | h | h <;>
        simp_all [professorIdCheck, firstNameCheck, lastNameCheck, educationCheck,
          specializationCheck, phoneCheck]
  · intro i h
    cases hp : parseProfessor i with
    | ok v =>
      exfalso
      have hf := (parseProfessor_ok_fields i v hp).2.1
      simp [firstNameCheck, h] at hf
    | error l =>
      refine ⟨l, rfl, ?_⟩
      have hl := parseProfessor_error_issues i l hp
      subst hl
      have hfn : firstNameCheck i.firstName
          = .error ⟨.tooSmall, "El nombre debe tener al menos 2 caracteres."⟩ := by
        simp [firstNameCheck, h]
      simp [professorIssues, hfn, issuesOf]
  · intro i hend henr h
    have h1 : periodIdCheck i.id = .error ⟨.tooSmall, "El ID es obligatorio."⟩ := by
      simp [periodIdCheck, h]
    unfold parsePeriod
    rw [hend, henr]
    simp only [periodEndDateCheck, periodEnrollmentEndCheck, h1]
    refine ⟨_, rfl, ?_⟩
    simp [issuesOf]

/-- Witness for C5 at concrete short inputs. -/
theorem min_length_rejection_witness :
    periodIdCheck "" = .error ⟨.tooSmall, "El ID es obligatorio."⟩ ∧
    phoneCheck "123" = .error ⟨.tooSmall, "Número de teléfono inválido."⟩ ∧
    gatewayCalls (periodSubmitAttempt { specScenarioInput with id := "" } none .faultAsync)
      = [] ∧
    gatewayCalls (professorSubmitAttempt shortProfessorInput none .faultAsync) = [] ∧
    (∃ issues, parseProfessor shortProfessorInput = .error issues ∧
      ZodIssue.mk .tooSmall "El nombre debe tener al menos 2 caracteres." ∈ issues) ∧
    (∃ issues, parsePeriod shortIdNoDatesInput = .ok (.error issues) ∧
      ZodIssue.mk .tooSmall "El ID es obligatorio." ∈ issues) :=
  ⟨min_length_rejection.1 "" (by decide),
   min_length_rejection.2.2.2.2.2.2.2.1 "123" (by decide),
   min_length_rejection.2.2.2.2.2.2.2.2.1 { specScenarioInput with id := "" } none
     .faultAsync (by decide),
   min_length_rejection.2.2.2.2.2.2.2.2.2.1 shortProfessorInput none .faultAsync
     (by decide),
   min_length_rejection.2.2.2.2.2.2.2.2.2.2.1 shortProfessorInput (by decide),
   min_length_rejection.2.2.2.2.2.2.2.2.2.2.2 shortIdNoDatesInput rfl rfl (by decide)⟩

/-- C5 counterexample: in the period form with an end date present (as
the form defaults always make it), an id shorter than its minimum does
not surface a field error — the parse aborts with the cross-field
refinement fault, so validation does not reject with field issues at
all — even though the id rule in isolation does reject the input. -/
theorem min_length_period_counterexample :
    periodIdCheck "" = .error ⟨.tooSmall, "El ID es obligatorio."⟩ ∧
    parsePeriod { specScenarioInput with id := "" }
      = .error (.typeError "Cannot read properties of undefined") ∧
    periodValidationRejects { specScenarioInput with id := "" } = false :=
  ⟨rfl, rfl, rfl⟩

/-- C9: the year field coerces its input with the JavaScript `Number`
conversion — accepting string and number input alike — and, for input
that coerces, validation passes exactly when the coerced value lies in
the closed range 2000 to 2100; input that does not coerce to a number
is rejected with an invalid-type issue. -/
theorem year_coercion_range :
    (∀ (v : JsVal) (q : ℚ), jsToNumber v = some (.finite q) →
        (periodYearCheck v = .ok (.finite q) ↔ 2000 ≤ q ∧ q ≤ 2100)) ∧
    (∀ (v : JsVal) (x : JsNumber), jsToNumber v = some x →
        (periodYearCheck v = .ok x ↔
          JsNumber.lt x (.finite 2000) = false ∧ JsNumber.lt (.finite 2100) x = false)) ∧
    (∀ v : JsVal, jsToNumber v = none →
        periodYearCheck v = .error ⟨.invalidType, "Expected number, received nan"⟩) := by
  refine ⟨?_, ?_, ?_⟩
  · intro v q h
    simp only [periodYearCheck, h, JsNumber.lt]
    split_ifs with h1 h2 <;> simp_all
  · intro v x h
    simp only [periodYearCheck, h]
    split_ifs with h1 h2 <;> simp_all
  · intro v h
    simp [periodYearCheck, h]

/-- Witness for C9: the strings "2024" and "2024.5" coerce and pass (the
schema has no integer constraint), "1e3" coerces to 1000 and fails the
range, and "abc" does not coerce and is a type violation. -/
theorem year_coercion_range_witness :
    periodYearCheck (.str "2024") = .ok (.finite 2024) ∧
    periodYearCheck (.str "2024.5") = .ok (.finite (2024.5 : ℚ)) ∧
    (periodYearCheck (.str "1e3") = .ok (.finite 1000) ↔
      2000 ≤ (1000 : ℚ) ∧ (1000 : ℚ) ≤ 2100) ∧
    periodYearCheck (.str "abc")
      = .error ⟨.invalidType, "Expected number, received nan"⟩ :=
  ⟨(year_coercion_range.1 (.str "2024") 2024 (by decide)).mpr (by norm_num),
   (year_coercion_range.1 (.str "2024.5") (2024.5 : ℚ)
      (by
        show some (JsNumber.finite (((2024 : Nat) : ℚ) + ((5 : Nat) : ℚ) / (10 : ℚ) ^ 1))
          = some (JsNumber.finite (2024.5 : ℚ))
        norm_num)).mpr (by norm_num),
   year_coercion_range.1 (.str "1e3") 1000
     (by
       show some (JsNumber.finite (((1 : Nat) : ℚ) * (10 : ℚ) ^ ((3 : Nat) : ℤ)))
         = some (JsNumber.finite (1000 : ℚ))
       norm_num),
   year_coercion_range.2.2 (.str "abc") (by decide)⟩

/-- C10: the hire-date month and year fields are validated only as bare
strings — every string passes, including "13", "1800" and "abc", and a
professor input carrying any hire-date strings parses to the entity
unchanged — even though the month select only offers the indices 0 to
11 and the year select only the years from 1990 to the current year. -/
theorem hire_date_unconstrained :
    (∀ s : String, hireDateMonthCheck s = .ok s ∧ hireDateYearCheck s = .ok s) ∧
    (∀ m y : String, parseProfessor (sampleProfessorInput m y)
        = .ok (sampleProfessorValues m y)) ∧
    (∀ s ∈ hireMonthOptionValues, ∃ i, i < 12 ∧ s = toString i) ∧
    (∀ currentYear : Nat, 1990 ≤ currentYear →
        ∀ s ∈ hireYearOptionValues currentYear,
          ∃ y, 1990 ≤ y ∧ y ≤ currentYear ∧ s = toString y) := by
  refine ⟨fun s => ⟨rfl, rfl⟩, fun m y => rfl, ?_, ?_⟩
  · intro s hs
    simp only [hireMonthOptionValues, months, List.length_cons, List.length_nil,
      List.mem_map, List.mem_range] at hs
    obtain ⟨i, hi, rfl⟩ := hs
    exact ⟨i, by omega, rfl⟩
  · intro cy hcy s hs
    simp only [hireYearOptionValues, List.mem_map, List.mem_range] at hs
    obtain ⟨i, hi, rfl⟩ := hs
    exact ⟨cy - i, by omega, by omega, rfl⟩

/-- Witness for C10: out-of-range hire-date strings pass validation and
the full professor parse succeeds with them. -/
theorem hire_date_unconstrained_witness :
    hireDateMonthCheck "13" = .ok "13" ∧ hireDateYearCheck "1800" = .ok "1800" ∧
    parseProfessor (sampleProfessorInput "13" "1800")
      = .ok (sampleProfessorValues "13" "1800") ∧
    (∃ i, i < 12 ∧ ("0" : String) = toString i) :=
  ⟨(hire_date_unconstrained.1 "13").1, (hire_date_unconstrained.1 "1800").2,
   hire_date_unconstrained.2.1 "13" "1800",
   hire_date_unconstrained.2.2.1 "0" (by decide)⟩

/-- Helper: the executable cedula regex test agrees with the declarative
pattern read off the spec. -/
theorem cedulaMatches_iff (s : String) : cedulaMatches s = true ↔ cedulaSpecPattern s := by
  rcases s with ⟨cs⟩
  show cedulaMatchesL cs = true ↔ ∃ c digits, cs = c :: '-' :: digits ∧ _
  match cs with
  | [] => simp [cedulaMatchesL]
  | [c] => simp [cedulaMatchesL]
  | c :: d :: rest =>
    simp only [cedulaMatchesL, Bool.and_eq_true, Bool.or_eq_true, beq_iff_eq,
      List.all_eq_true, List.cons.injEq]
    constructor
    · rintro ⟨⟨⟨hc, hd⟩, hall⟩, hlen⟩
      subst hd
      exact ⟨c, rest, ⟨rfl, rfl, rfl⟩, hc, hall, hlen⟩
    · rintro ⟨c2, digits, ⟨h1, h2, h3⟩, hc, hall, hlen⟩
      subst h1; subst h2; subst h3
      exact ⟨⟨⟨hc, rfl⟩, hall⟩, hlen⟩

/-- C8 counterexample: a matching cedula surrounded by whitespace is
rejected by the anchored regex — there is no trimming — refuting the
reading that matching inputs are accepted regardless of surrounding
whitespace; the same cedula without whitespace is accepted. -/
theorem cedula_whitespace_counterexample :
    cedulaCheck " V-1234567"
      = .error ⟨.invalidString, "La cédula debe tener el formato V-1234567 o E-1234567."⟩ ∧
    cedulaCheck "V-1234567 "
      = .error ⟨.invalidString, "La cédula debe tener el formato V-1234567 o E-1234567."⟩ ∧
    cedulaCheck "V-1234567" = .ok "V-1234567" :=
  ⟨rfl, rfl, rfl⟩

/-- C8 amended: a cedula input is accepted iff the entire string matches
the anchored pattern — the letter V or E, a dash, then 7 or 8 digits;
no trimming is performed, so a matching cedula with leading or trailing
whitespace is rejected with the cedula format error. -/
theorem cedula_anchored_match :
    (∀ s : String, cedulaCheck s = .ok s ↔ cedulaSpecPattern s) ∧
    (∀ s : String, cedulaSpecPattern s →
        cedulaCheck (" " ++ s)
          = .error ⟨.invalidString,
              "La cédula debe tener el formato V-1234567 o E-1234567."⟩ ∧
        cedulaCheck (s ++ " ")
          = .error ⟨.invalidString,
              "La cédula debe tener el formato V-1234567 o E-1234567."⟩) := by
  constructor
  · intro s
    rw [← cedulaMatches_iff]
    unfold cedulaCheck
    split <;> simp_all
  · intro s hs
    have hm : cedulaMatches s = true := (cedulaMatches_iff s).mpr hs
    obtain ⟨c, digits, hdata, hc, hall, hlen⟩ := hs
    constructor
    · have : cedulaMatches (" " ++ s) = false := by
        unfold cedulaMatches
        rw [String.data_append, hdata]
        show cedulaMatchesL (' ' :: c :: '-' :: digits) = false
        rcases hc with rfl | rfl <;> rfl
      unfold cedulaCheck
      rw [this]
      simp
    · have : cedulaMatches (s ++ " ") = false := by
        unfold cedulaMatches
        rw [String.data_append, hdata]
        show cedulaMatchesL (c :: '-' :: (digits ++ [' '])) = false
        simp only [cedulaMatchesL, List.all_append, Bool.and_eq_true]
        simp
      unfold cedulaCheck
      rw [this]
      simp

/-- Witness for the amended C8 at a concrete cedula. -/
theorem cedula_anchored_match_witness :
    cedulaCheck "E-12345678" = .ok "E-12345678" ∧
    cedulaCheck (" " ++ "E-12345678")
      = .error ⟨.invalidString,
          "La cédula debe tener el formato V-1234567 o E-1234567."⟩ :=
  ⟨(cedula_anchored_match.1 "E-12345678").mpr
      ⟨'E', ['1', '2', '3', '4', '5', '6', '7', '8'], by decide, by decide, by decide,
        by decide⟩,
   (cedula_anchored_match.2 "E-12345678"
      ⟨'E', ['1', '2', '3', '4', '5', '6', '7', '8'], by decide, by decide, by decide,
        by decide⟩).1⟩
